import Mathlib

/-!
Verification of the Sentinel-2 change-detection pipeline in `app.py`
(Mapathon-2025 dashboard).

The embedding models:
* 2-D numpy float arrays as `NArr` (shape plus a total entry function, rationals
  for the float values), with numpy broadcasting semantics for elementwise
  binary operations (`npBinop`), scalar operations, comparison masks (`BArr`),
  and python slice clamping (`npCropTL`, `pyIdx`);
* the STAC scene search of `compute_change` (lines 73-83): the query built by
  the code and the first-item / sign / empty-result behaviour;
* the band reads of `compute_change` (lines 85-95): band, scale and resampling
  method of each read and the output shape `(height // scale, width // scale)`;
* the index arithmetic of `compute_change` (lines 97-108): `ndvi_change`,
  `ndbi_change`;
* `safe_percent` (lines 113-114), `get_ward_name` (lines 119-131) and
  `analyze_wards` (lines 136-180).
-/

/-- A 2-D numpy array of floats, modelled with rational entries.  Entries
outside the `rows × cols` shape are junk values of the total function. -/
structure NArr where
  rows : Nat
  cols : Nat
  entry : Nat → Nat → ℚ

/-- numpy broadcasting of one dimension: compatible when equal or either is 1. -/
def bcastDim (a b : Nat) : Option Nat :=
  if a = b then some a else if a = 1 then some b else if b = 1 then some a else none

/-- Index into a possibly broadcast dimension: a length-1 axis repeats its entry. -/
def bIdx (d i : Nat) : Nat := if d = 1 then 0 else i

/-- Elementwise binary operation on two 2-D numpy arrays with broadcasting;
`none` models the `ValueError` numpy raises on non-broadcastable shapes. -/
def npBinop (f : ℚ → ℚ → ℚ) (x y : NArr) : Option NArr :=
  match bcastDim x.rows y.rows, bcastDim x.cols y.cols with
  | some r, some c =>
      some ⟨r, c, fun i j =>
        f (x.entry (bIdx x.rows i) (bIdx x.cols j)) (y.entry (bIdx y.rows i) (bIdx y.cols j))⟩
  | _, _ => none

def npSub (x y : NArr) : Option NArr := npBinop (fun a b => a - b) x y

def npAdd (x y : NArr) : Option NArr := npBinop (fun a b => a + b) x y

def npDiv (x y : NArr) : Option NArr := npBinop (fun a b => a / b) x y

/-- Array plus scalar (`arr + 1e-10` in the source); always succeeds. -/
def npAddScalar (x : NArr) (c : ℚ) : NArr := ⟨x.rows, x.cols, fun i j => x.entry i j + c⟩

/-- `a[:r, :c]`: python slices clamp, so the result shape is the minimum. -/
def npCropTL (a : NArr) (r c : Nat) : NArr := ⟨min a.rows r, min a.cols c, a.entry⟩

/-- The epsilon literal `1e-10` of `compute_change`. -/
def eps : ℚ := 1e-10

/-- Scalar normalized-difference formula `(a - b) / (a + b + 1e-10)` that the
source applies elementwise (lines 97-106). -/
def indexPix (a b : ℚ) : ℚ := (a - b) / (a + b + eps)

/-- The array expression `(x - y) / (x + y + 1e-10)` exactly as written in
`compute_change` for both NDVI and NDBI. -/
def idxExpr (x y : NArr) : Option NArr := do
  let num ← npSub x y
  let s ← npAdd x y
  npDiv num (npAddScalar s eps)

/-- Lines 97-99: `(nir_a - red_a)/(nir_a + red_a + 1e-10) -
(nir_b - red_b)/(nir_b + red_b + 1e-10)`.  No cropping between the two
time points. -/
def ndvi_change (nir_a red_a nir_b red_b : NArr) : Option NArr := do
  let a ← idxExpr nir_a red_a
  let b ← idxExpr nir_b red_b
  npSub a b

/-- One time point of lines 101-106: `(swir - nir[:swir.shape[0], :swir.shape[1]])
/ (swir + nir[:swir.shape[0], :swir.shape[1]] + 1e-10)`. -/
def ndbiSingle (swir nir : NArr) : Option NArr :=
  idxExpr swir (npCropTL nir swir.rows swir.cols)

/-- Lines 101-106: the NDBI change, after minus before. -/
def ndbi_change (swir_a nir_a swir_b nir_b : NArr) : Option NArr := do
  let a ← ndbiSingle swir_a nir_a
  let b ← ndbiSingle swir_b nir_b
  npSub a b

/-- The arithmetic tail of `compute_change` (lines 97-108), parameterized by
the six band rasters produced by the reads. -/
def compute_change_arrays (red_b nir_b red_a nir_a swir_b swir_a : NArr) :
    Option (NArr × NArr) := do
  let v ← ndvi_change nir_a red_a nir_b red_b
  let u ← ndbi_change swir_a nir_a swir_b nir_b
  pure (v, u)

/-- Resampling methods of `rasterio.enums.Resampling` used by the variants. -/
inductive ResamplingMethod
  | average
  | bilinear
  | nearest
deriving DecidableEq

/-- One band read of the `read` helper (lines 85-91): asset key, integer
downscale factor and resampling method. -/
structure ReadSpec where
  band : String
  scale : Nat
  method : ResamplingMethod
deriving DecidableEq

/-- Line 93: `read("B04", item, 4)` with `Resampling.average`. -/
def readRed : ReadSpec := ⟨"B04", 4, ResamplingMethod.average⟩

/-- Line 93-94: `read("B08", item, 4)` with `Resampling.average`. -/
def readNir : ReadSpec := ⟨"B08", 4, ResamplingMethod.average⟩

/-- Line 95: `read("B11", item, 8)` with `Resampling.average`. -/
def readSwir : ReadSpec := ⟨"B11", 8, ResamplingMethod.average⟩

/-- All reads performed by `compute_change` (lines 93-95). -/
def bandReads : List ReadSpec := [readRed, readNir, readSwir]

/-- Line 89: `out_shape=(src.height // scale, src.width // scale)`. -/
def readOutShape (h w scale : Nat) : Nat × Nat := (h / scale, w / scale)

/-- The query bounding box `[min lons, min lats, max lons, max lats]` built by
`load_city` and indexed as `bbox[0] .. bbox[3]`. -/
structure BBox where
  minx : ℚ
  miny : ℚ
  maxx : ℚ
  maxy : ℚ
deriving DecidableEq

/-- The STAC search parameters passed to `catalog.search` (lines 74-79). -/
structure SearchQuery where
  collections : List String
  bboxq : BBox
  datetime : String
  cloudLt : ℚ

/-- Lines 74-79: the query built by `scene(year)` — collection
`sentinel-2-l2a`, the request bbox, the full calendar year, and the filter
`{"eo:cloud_cover": {"lt": 10}}` (strictly below 10). -/
def mkSearch (bbox : BBox) (year : Nat) : SearchQuery :=
  ⟨["sentinel-2-l2a"], bbox,
   toString year ++ "-01-01/" ++ toString year ++ "-12-31", 10⟩

/-- A catalog item: collection, cloud-cover metadata, and whether its asset
URLs have been signed. -/
structure SceneItem where
  collection : String
  cloudCover : ℚ
  signed : Bool
deriving DecidableEq

/-- `planetary_computer.sign`: resolves the item's asset URLs into directly
fetchable (signed) URLs. -/
def pcSign (s : SceneItem) : SceneItem := { s with signed := true }

/-- Modelled from the spec: the external catalog interface "accepts
{collection identifier, bounding box, date range, cloud-cover filter} and
returns an ordered list of scene descriptors" — the items of the requested
collections that pass the cloud-cover filter, in catalog order. -/
def catalogSearch (available : List SceneItem) (q : SearchQuery) : List SceneItem :=
  available.filter (fun s => q.collections.contains s.collection && decide (s.cloudCover < q.cloudLt))

/-- Line 80: `pc.sign(list(search.items())[0])`.  Indexing an empty list
raises an uncaught `IndexError` that propagates to the caller; otherwise the
first item of the catalog's default ordering is signed and returned. -/
def scene (available : List SceneItem) (bbox : BBox) (year : Nat) : Except String SceneItem :=
  match catalogSearch available (mkSearch bbox year) with
  | [] => Except.error "IndexError: list index out of range"
  | s :: _ => Except.ok (pcSign s)

/-- A 2-D numpy boolean array (a comparison mask). -/
structure BArr where
  rows : Nat
  cols : Nat
  entry : Nat → Nat → Bool

/-- `mask.size`: the total pixel count. -/
def BArr.size (m : BArr) : Nat := m.rows * m.cols

/-- `np.count_nonzero(mask)` for a 2-D boolean mask. -/
def count_nonzero (m : BArr) : Nat :=
  ((List.range m.rows).map
    (fun i => ((List.range m.cols).filter (fun j => m.entry i j)).length)).sum

/-- Lines 113-114: `(np.count_nonzero(mask) / mask.size) * 100 if mask.size
else 0.0`. -/
def safe_percent (m : BArr) : ℚ :=
  if m.size ≠ 0 then ((count_nonzero m : ℚ) / (m.size : ℚ)) * 100 else 0

/-- `arr < t` on a numpy array: the elementwise comparison mask. -/
def npLtScalar (z : NArr) (t : ℚ) : BArr :=
  ⟨z.rows, z.cols, fun i j => decide (z.entry i j < t)⟩

/-- `arr > t` on a numpy array: the elementwise comparison mask. -/
def npGtScalar (z : NArr) (t : ℚ) : BArr :=
  ⟨z.rows, z.cols, fun i j => decide (z.entry i j > t)⟩

/-- A `st.slider(label, min_value, max_value, value, step)` configuration. -/
structure Slider where
  minValue : ℚ
  maxValue : ℚ
  value : ℚ
  step : ℚ
deriving DecidableEq

/-- Line 41: `st.slider("Vegetation change threshold (NDVI)", 0.1, 0.4, 0.2, 0.05)`. -/
def ndvi_thresh : Slider := ⟨0.1, 0.4, 0.2, 0.05⟩

/-- Line 42: `st.slider("Urban growth threshold (NDBI)", 0.1, 0.4, 0.2, 0.05)`. -/
def ndbi_thresh : Slider := ⟨0.1, 0.4, 0.2, 0.05⟩

/-- Python `int()` applied to a float: truncation toward zero. -/
def pyInt (q : ℚ) : ℤ := if 0 ≤ q then ⌊q⌋ else ⌈q⌉

/-- Lines 147-155: `int((coord - bbox_min) / (bbox_max - bbox_min) * dim)`. -/
def interpIdx (coord lo hi : ℚ) (dim : Nat) : ℤ :=
  pyInt ((coord - lo) / (hi - lo) * dim)

/-- Python slice-bound semantics for `a[v]`-style slice endpoints on an axis of
length `len`: negative endpoints count from the end, then both are clamped to
`[0, len]`. -/
def pyIdx (v : ℤ) (len : Nat) : Nat :=
  min (if v < 0 then v + len else v).toNat len

/-- A polygon as a nonempty coordinate list (what `shapely.geometry.shape`
needs for `.bounds`). -/
structure Polygon where
  head : ℚ × ℚ
  tail : List (ℚ × ℚ)
deriving DecidableEq

/-- `poly.bounds = (minx, miny, maxx, maxy)` over the polygon's coordinates. -/
def polyBounds (p : Polygon) : ℚ × ℚ × ℚ × ℚ :=
  (p.tail.foldl (fun acc q => min acc q.1) p.head.1,
   p.tail.foldl (fun acc q => min acc q.2) p.head.2,
   p.tail.foldl (fun acc q => max acc q.1) p.head.1,
   p.tail.foldl (fun acc q => max acc q.2) p.head.2)

/-- Lines 147-158: the pixel sub-window of one raster of shape `h × w` for a
polygon's bounds, as `((rowStart, rowStop), (colStart, colStop))` —
`int`-interpolated indices, `max(0, ·)`/`min(dim, ·)` guards, then python
slice semantics. -/
def wardWindow (bbox : BBox) (h w : Nat) : ℚ × ℚ × ℚ × ℚ → (Nat × Nat) × (Nat × Nat)
  | (minx, miny, maxx, maxy) =>
    let x0 := interpIdx minx bbox.minx bbox.maxx w
    let x1 := interpIdx maxx bbox.minx bbox.maxx w
    let y0 := interpIdx miny bbox.miny bbox.maxy h
    let y1 := interpIdx maxy bbox.miny bbox.maxy h
    ((pyIdx (max 0 y0) h, pyIdx (min (h : ℤ) y1) h),
     (pyIdx (max 0 x0) w, pyIdx (min (w : ℤ) x1) w))

/-- Extract the sub-window `a[r0:r1, c0:c1]` given already-normalized slice
bounds. -/
def subWindow (a : NArr) (win : (Nat × Nat) × (Nat × Nat)) : NArr :=
  ⟨win.1.2 - win.1.1, win.2.2 - win.2.1,
   fun i j => a.entry (win.1.1 + i) (win.2.1 + j)⟩

/-- Lines 157-158: the zone slice of a raster for one ward polygon. -/
def zoneOf (a : NArr) (bbox : BBox) (poly : Polygon) : NArr :=
  subWindow a (wardWindow bbox a.rows a.cols (polyBounds poly))

/-- Line 160: `safe_percent(zone_ndvi < -ndvi_thresh)`. -/
def wardVeg (ndvi : NArr) (bbox : BBox) (tv : ℚ) (poly : Polygon) : ℚ :=
  safe_percent (npLtScalar (zoneOf ndvi bbox poly) (-tv))

/-- Line 161: `safe_percent(zone_ndbi > ndbi_thresh)`. -/
def wardUrb (ndbi : NArr) (bbox : BBox) (tu : ℚ) (poly : Polygon) : ℚ :=
  safe_percent (npGtScalar (zoneOf ndbi bbox poly) tu)

/-- Lines 120-123: the candidate ward-name keys, in probe order. -/
def ward_name_keys : List String :=
  ["ward_name", "WARD_NAME", "wardname", "division",
   "ward_no", "WARD_NO", "wardnumber", "ward_id", "Ward_No"]

/-- Feature properties as an ordered key/value mapping; `none` models the
python value `None`. -/
abbrev Props : Type := List (String × Option String)

/-- `key in props` plus the stored value. -/
def propGet (props : Props) (k : String) : Option (Option String) :=
  (props.find? (fun p => p.1 == k)).map (fun p => p.2)

/-- Python `str(v)` for an optional string value. -/
def pyStr (v : Option String) : String :=
  match v with
  | some s => s
  | none => "None"

/-- Python `"ward" in k.lower()`. -/
def containsWard (k : String) : Bool :=
  (k.toLower.splitOn "ward").length != 1

/-- Lines 119-131: first candidate key present with a value that is neither
`None` nor `""`; else the first key containing "ward" (case-insensitive);
else `"Unknown"`. -/
def get_ward_name (props : Props) : String :=
  match ward_name_keys.find? (fun k =>
      match propGet props k with
      | some (some v) => v != ""
      | some none => false
      | none => false) with
  | some k => pyStr ((propGet props k).getD none)
  | none =>
    match props.find? (fun p => containsWard p.1) with
    | some p => pyStr p.2
    | none => "Unknown"

/-- Two-digit zero padding for the fractional part of a fixed-point render. -/
def pad2 (n : Nat) : String :=
  if n < 10 then "0" ++ toString n else toString n

/-- Round half to even, the rounding of python float formatting. -/
def roundHalfEven (q : ℚ) : ℤ :=
  let f := ⌊q⌋
  let r := q - f
  if r < 1/2 then f else if 1/2 < r then f + 1 else if f % 2 = 0 then f else f + 1

/-- Python `"{:.2f}".format(q)` on the model's exact rationals. -/
def fmt2 (q : ℚ) : String :=
  let n := roundHalfEven (q * 100)
  let a := n.natAbs
  (if n < 0 then "-" else "") ++ toString (a / 100) ++ "." ++ pad2 (a % 100)

/-- Lines 172-176: the popup HTML string of one ward. -/
def popupStr (ward : String) (veg urb : ℚ) : String :=
  "<b>Ward:</b> " ++ ward ++ "<br>" ++
  "<b>Vegetation Loss:</b> " ++ fmt2 veg ++ "%<br>" ++
  "<b>Urban Expansion:</b> " ++ fmt2 urb ++ "%"

/-- One GeoJSON feature: geometry (as the coordinates `shape` consumes) and
its properties. -/
structure Feature where
  geometry : Polygon
  properties : Props

/-- One row of the ward analytics table (lines 166-170). -/
structure WardRow where
  ward : String
  vegLoss : ℚ
  urban : ℚ

/-- Python `d[k] = v` on an ordered dict: update in place if present, else
append. -/
def setProp (props : Props) (k : String) (v : Option String) : Props :=
  if (props.find? (fun p => p.1 == k)).isSome then
    props.map (fun p => if p.1 == k then (k, v) else p)
  else
    props ++ [(k, v)]

/-- The table row built for one feature in the loop body (lines 143-170). -/
def rowOf (ndvi ndbi : NArr) (bbox : BBox) (tv tu : ℚ) (f : Feature) : WardRow :=
  ⟨get_ward_name f.properties,
   wardVeg ndvi bbox tv f.geometry,
   wardUrb ndbi bbox tu f.geometry⟩

/-- The output feature built for one input feature (lines 172-178): same
geometry, properties with the `popup` key set. -/
def featOf (ndvi ndbi : NArr) (bbox : BBox) (tv tu : ℚ) (f : Feature) : Feature :=
  ⟨f.geometry,
   setProp f.properties "popup"
     (some (popupStr (get_ward_name f.properties)
       (wardVeg ndvi bbox tv f.geometry) (wardUrb ndbi bbox tu f.geometry)))⟩

/-- Lines 136-180: `analyze_wards` — one table row and one popup-annotated
feature per input feature, in input order. -/
def analyze_wards (boundary : List Feature) (ndvi ndbi : NArr) (bbox : BBox)
    (tv tu : ℚ) : List WardRow × List Feature :=
  (boundary.map (rowOf ndvi ndbi bbox tv tu),
   boundary.map (featOf ndvi ndbi bbox tv tu))

/-- Shape-and-entries specification of an array: used to state what the array
expressions compute on the pixels inside the shape. -/
def NArr.eqTo (z : NArr) (r c : Nat) (g : Nat → Nat → ℚ) : Prop :=
  z.rows = r ∧ z.cols = c ∧ ∀ i j, i < r → j < c → z.entry i j = g i j

/-! ## Helper lemmas about the array model -/

lemma bcastDim_self (a : Nat) : bcastDim a a = some a := by
  simp [bcastDim]

lemma bIdx_of_lt {d i : Nat} (h : i < d) : bIdx d i = i := by
  unfold bIdx
  split <;> omega

lemma npBinop_same_spec (f : ℚ → ℚ → ℚ) (x y : NArr)
    (hr : x.rows = y.rows) (hc : x.cols = y.cols) :
    ∃ z, npBinop f x y = some z ∧
      z.eqTo x.rows x.cols (fun i j => f (x.entry i j) (y.entry i j)) := by
  refine ⟨⟨x.rows, x.cols, fun i j =>
    f (x.entry (bIdx x.rows i) (bIdx x.cols j)) (y.entry (bIdx y.rows i) (bIdx y.cols j))⟩,
    ?_, rfl, rfl, ?_⟩
  · unfold npBinop
    rw [← hr, ← hc, bcastDim_self, bcastDim_self]
  · intro i j hi hj
    simp only [bIdx_of_lt hi, bIdx_of_lt hj, bIdx_of_lt (hr ▸ hi), bIdx_of_lt (hc ▸ hj)]

lemma idxExpr_spec (x y : NArr) (hr : x.rows = y.rows) (hc : x.cols = y.cols) :
    ∃ z, idxExpr x y = some z ∧
      z.eqTo x.rows x.cols (fun i j => indexPix (x.entry i j) (y.entry i j)) := by
  obtain ⟨n, hn, hnr, hnc, hne⟩ := npBinop_same_spec (fun a b => a - b) x y hr hc
  obtain ⟨s, hs, hsr, hsc, hse⟩ := npBinop_same_spec (fun a b => a + b) x y hr hc
  have hdr : n.rows = (npAddScalar s eps).rows := by simp [npAddScalar, hnr, hsr]
  have hdc : n.cols = (npAddScalar s eps).cols := by simp [npAddScalar, hnc, hsc]
  obtain ⟨z, hz, hzr, hzc, hze⟩ :=
    npBinop_same_spec (fun a b => a / b) n (npAddScalar s eps) hdr hdc
  refine ⟨z, ?_, by rw [hzr, hnr], by rw [hzc, hnc], ?_⟩
  · show (npSub x y).bind _ = some z
    rw [show npSub x y = some n from hn]
    show (npAdd x y).bind _ = some z
    rw [show npAdd x y = some s from hs]
    exact hz
  · intro i j hi hj
    rw [hze i j (by rw [hnr]; exact hi) (by rw [hnc]; exact hj)]
    show n.entry i j / (s.entry i j + eps) = indexPix (x.entry i j) (y.entry i j)
    rw [hne i j hi hj, hse i j hi hj]
    rfl

lemma npSub_spec (x y : NArr) (hr : x.rows = y.rows) (hc : x.cols = y.cols) :
    ∃ z, npSub x y = some z ∧
      z.eqTo x.rows x.cols (fun i j => x.entry i j - y.entry i j) :=
  npBinop_same_spec (fun a b => a - b) x y hr hc

lemma ndvi_change_spec (na ra nb rb : NArr)
    (h1 : na.rows = ra.rows) (h2 : na.cols = ra.cols)
    (h3 : nb.rows = rb.rows) (h4 : nb.cols = rb.cols)
    (h5 : na.rows = nb.rows) (h6 : na.cols = nb.cols) :
    ∃ z, ndvi_change na ra nb rb = some z ∧
      z.eqTo na.rows na.cols (fun i j =>
        indexPix (na.entry i j) (ra.entry i j) - indexPix (nb.entry i j) (rb.entry i j)) := by
  obtain ⟨a, ha, har, hac, hae⟩ := idxExpr_spec na ra h1 h2
  obtain ⟨b, hb, hbr, hbc, hbe⟩ := idxExpr_spec nb rb h3 h4
  obtain ⟨z, hz, hzr, hzc, hze⟩ :=
    npSub_spec a b (by rw [har, hbr, h5]) (by rw [hac, hbc, h6])
  refine ⟨z, ?_, by rw [hzr, har], by rw [hzc, hac], ?_⟩
  · show (idxExpr na ra).bind _ = some z
    rw [ha]
    show (idxExpr nb rb).bind _ = some z
    rw [hb]
    exact hz
  · intro i j hi hj
    rw [hze i j (by rw [har]; exact hi) (by rw [hac]; exact hj)]
    show a.entry i j - b.entry i j = _
    rw [hae i j hi hj, hbe i j (by rw [← h5]; exact hi) (by rw [← h6]; exact hj)]

lemma npCropTL_of_le (a : NArr) (r c : Nat) (hr : r ≤ a.rows) (hc : c ≤ a.cols) :
    npCropTL a r c = ⟨r, c, a.entry⟩ := by
  simp [npCropTL, Nat.min_eq_right hr, Nat.min_eq_right hc]

lemma ndbiSingle_spec (swir nir : NArr)
    (h1 : swir.rows ≤ nir.rows) (h2 : swir.cols ≤ nir.cols) :
    ∃ z, ndbiSingle swir nir = some z ∧
      z.eqTo swir.rows swir.cols (fun i j =>
        indexPix (swir.entry i j) (nir.entry i j)) := by
  unfold ndbiSingle
  rw [npCropTL_of_le nir swir.rows swir.cols h1 h2]
  exact idxExpr_spec swir ⟨swir.rows, swir.cols, nir.entry⟩ rfl rfl

lemma ndbi_change_spec (sa na sb nb : NArr)
    (h1 : sa.rows ≤ na.rows) (h2 : sa.cols ≤ na.cols)
    (h3 : sb.rows ≤ nb.rows) (h4 : sb.cols ≤ nb.cols)
    (h5 : sa.rows = sb.rows) (h6 : sa.cols = sb.cols) :
    ∃ z, ndbi_change sa na sb nb = some z ∧
      z.eqTo sa.rows sa.cols (fun i j =>
        indexPix (sa.entry i j) (na.entry i j) - indexPix (sb.entry i j) (nb.entry i j)) := by
  obtain ⟨a, ha, har, hac, hae⟩ := ndbiSingle_spec sa na h1 h2
  obtain ⟨b, hb, hbr, hbc, hbe⟩ := ndbiSingle_spec sb nb h3 h4
  obtain ⟨z, hz, hzr, hzc, hze⟩ :=
    npSub_spec a b (by rw [har, hbr, h5]) (by rw [hac, hbc, h6])
  refine ⟨z, ?_, by rw [hzr, har], by rw [hzc, hac], ?_⟩
  · show (ndbiSingle sa na).bind _ = some z
    rw [ha]
    show (ndbiSingle sb nb).bind _ = some z
    rw [hb]
    exact hz
  · intro i j hi hj
    rw [hze i j (by rw [har]; exact hi) (by rw [hac]; exact hj)]
    show a.entry i j - b.entry i j = _
    rw [hae i j hi hj, hbe i j (by rw [← h5]; exact hi) (by rw [← h6]; exact hj)]

lemma bcastDim_none {a b : Nat} (h1 : a ≠ b) (h2 : a ≠ 1) (h3 : b ≠ 1) :
    bcastDim a b = none := by
  simp [bcastDim, h1, h2, h3]

lemma npBinop_none_cols (f : ℚ → ℚ → ℚ) (x y : NArr)
    (h : bcastDim x.cols y.cols = none) : npBinop f x y = none := by
  unfold npBinop
  rw [h]
  rcases bcastDim x.rows y.rows with _ | r <;> rfl

lemma ndvi_change_none_of_cols (na ra nb rb : NArr)
    (h1 : na.rows = ra.rows) (h2 : na.cols = ra.cols)
    (h3 : nb.rows = rb.rows) (h4 : nb.cols = rb.cols)
    (h5 : na.cols ≠ nb.cols) (h6 : na.cols ≠ 1) (h7 : nb.cols ≠ 1) :
    ndvi_change na ra nb rb = none := by
  obtain ⟨a, ha, har, hac, hae⟩ := idxExpr_spec na ra h1 h2
  obtain ⟨b, hb, hbr, hbc, hbe⟩ := idxExpr_spec nb rb h3 h4
  show (idxExpr na ra).bind _ = none
  rw [ha]
  show (idxExpr nb rb).bind _ = none
  rw [hb]
  exact npBinop_none_cols _ a b
    (bcastDim_none (by rw [hac, hbc]; exact h5) (by rw [hac]; exact h6) (by rw [hbc]; exact h7))

lemma count_nonzero_le_size (m : BArr) : count_nonzero m ≤ m.size := by
  unfold count_nonzero BArr.size
  calc ((List.range m.rows).map
      (fun i => ((List.range m.cols).filter (fun j => m.entry i j)).length)).sum
      ≤ ((List.range m.rows).map (fun _ => m.cols)).sum := by
        apply List.sum_le_sum
        intro i hi
        simpa using List.length_filter_le _ (List.range m.cols)
    _ = m.rows * m.cols := by
        simp [List.map_const, List.sum_replicate, smul_eq_mul, mul_comm]

lemma safe_percent_nonneg (m : BArr) : 0 ≤ safe_percent m := by
  unfold safe_percent
  split
  · positivity
  · exact le_refl 0

lemma safe_percent_le_100 (m : BArr) : safe_percent m ≤ 100 := by
  unfold safe_percent
  split
  · rename_i h
    have hsz : 0 < (m.size : ℚ) := by
      have : 0 < m.size := Nat.pos_of_ne_zero h
      exact_mod_cast this
    have hle : (count_nonzero m : ℚ) ≤ (m.size : ℚ) := by
      exact_mod_cast count_nonzero_le_size m
    have : (count_nonzero m : ℚ) / (m.size : ℚ) ≤ 1 := (div_le_one hsz).mpr hle
    calc (count_nonzero m : ℚ) / (m.size : ℚ) * 100 ≤ 1 * 100 := by
          apply mul_le_mul_of_nonneg_right this
          norm_num
      _ = 100 := by norm_num
  · norm_num

lemma pyIdx_le (v : ℤ) (len : Nat) : pyIdx v len ≤ len := Nat.min_le_right _ _

/-! ## Claim theorems -/

/-- C1: for aligned (equal-shape) rasters, the index calculator computes
elementwise `(A - B) / (A + B + 1e-10)` exactly, NDVI from (nir, red) and NDBI
from (swir, nir) in that operand order, and the change rasters equal the
after-index minus the before-index elementwise. -/
theorem index_change_formula (nirA redA nirB redB swirA swirB : NArr)
    (h1 : nirA.rows = redA.rows) (h2 : nirA.cols = redA.cols)
    (h3 : nirB.rows = redB.rows) (h4 : nirB.cols = redB.cols)
    (h5 : nirA.rows = nirB.rows) (h6 : nirA.cols = nirB.cols)
    (h7 : swirA.rows = nirA.rows) (h8 : swirA.cols = nirA.cols)
    (h9 : swirB.rows = nirB.rows) (h10 : swirB.cols = nirB.cols) :
    (∀ a b : ℚ, indexPix a b = (a - b) / (a + b + 1 / 10 ^ 10)) ∧
    (∃ z, ndvi_change nirA redA nirB redB = some z ∧
      z.eqTo nirA.rows nirA.cols (fun i j =>
        indexPix (nirA.entry i j) (redA.entry i j) -
        indexPix (nirB.entry i j) (redB.entry i j))) ∧
    (∃ z, ndbi_change swirA nirA swirB nirB = some z ∧
      z.eqTo swirA.rows swirA.cols (fun i j =>
        indexPix (swirA.entry i j) (nirA.entry i j) -
        indexPix (swirB.entry i j) (nirB.entry i j))) := by
  refine ⟨?_, ndvi_change_spec nirA redA nirB redB h1 h2 h3 h4 h5 h6, ?_⟩
  · intro a b
    unfold indexPix eps
    norm_num
  · exact ndbi_change_spec swirA nirA swirB nirB
      (le_of_eq h7) (le_of_eq h8) (le_of_eq h9) (le_of_eq h10)
      (by rw [h7, h9, h5]) (by rw [h8, h10, h6])

theorem index_change_formula_witness :
    (∀ a b : ℚ, indexPix a b = (a - b) / (a + b + 1 / 10 ^ 10)) ∧
    (∃ z, ndvi_change ⟨1, 1, fun _ _ => 8/10⟩ ⟨1, 1, fun _ _ => 2/10⟩
        ⟨1, 1, fun _ _ => 3/10⟩ ⟨1, 1, fun _ _ => 3/10⟩ = some z ∧
      z.eqTo 1 1 (fun _ _ => indexPix ((8:ℚ)/10) ((2:ℚ)/10) - indexPix ((3:ℚ)/10) ((3:ℚ)/10))) ∧
    (∃ z, ndbi_change ⟨1, 1, fun _ _ => 5/10⟩ ⟨1, 1, fun _ _ => 8/10⟩
        ⟨1, 1, fun _ _ => 4/10⟩ ⟨1, 1, fun _ _ => 3/10⟩ = some z ∧
      z.eqTo 1 1 (fun _ _ => indexPix ((5:ℚ)/10) ((8:ℚ)/10) - indexPix ((4:ℚ)/10) ((3:ℚ)/10))) :=
  index_change_formula ⟨1, 1, fun _ _ => 8/10⟩ ⟨1, 1, fun _ _ => 2/10⟩
    ⟨1, 1, fun _ _ => 3/10⟩ ⟨1, 1, fun _ _ => 3/10⟩
    ⟨1, 1, fun _ _ => 5/10⟩ ⟨1, 1, fun _ _ => 4/10⟩
    rfl rfl rfl rfl rfl rfl rfl rfl rfl rfl

/-- C2 (counterexample): the shortwave-infrared read uses `Resampling.average`,
not bilinear interpolation, and the read output shapes do not put the bands on
a common grid: at the native Sentinel-2 sizes (10980² for the 10m bands, 5490²
for the 20m B11 band), red/nir come out 2745² while swir comes out 686². -/
theorem band_reader_counterexample :
    readSwir.method = ResamplingMethod.average ∧
    ResamplingMethod.average ≠ ResamplingMethod.bilinear ∧
    readOutShape 10980 10980 readRed.scale ≠ readOutShape 5490 5490 readSwir.scale := by
  refine ⟨rfl, by decide, by decide⟩

/-- C2 (amended): every band read of `compute_change` uses area-averaging
resampling at output shape `(height // scale, width // scale)`; red and
near-infrared use the same scale 4 (so equal native shapes give equal output
shapes), while shortwave-infrared is read at scale 8 and is not brought to the
same grid by the reads. -/
theorem band_reader_amended :
    (∀ r, r ∈ bandReads → r.method = ResamplingMethod.average) ∧
    readRed.scale = 4 ∧ readNir.scale = 4 ∧ readSwir.scale = 8 ∧
    (∀ h w : Nat, readOutShape h w readRed.scale = readOutShape h w readNir.scale) ∧
    (∀ h w s : Nat, readOutShape h w s = (h / s, w / s)) := by
  refine ⟨?_, rfl, rfl, rfl, fun h w => rfl, fun h w s => rfl⟩
  intro r hr
  simp only [bandReads, List.mem_cons, List.not_mem_nil, or_false] at hr
  rcases hr with rfl | rfl | rfl <;> rfl

theorem band_reader_amended_witness :
    readSwir.method = ResamplingMethod.average ∧
    readOutShape 10980 10980 readRed.scale = readOutShape 10980 10980 readNir.scale :=
  ⟨band_reader_amended.1 readSwir (by simp [bandReads]),
   band_reader_amended.2.2.2.2.1 10980 10980⟩

/-- C3 (counterexample): with the before NDVI operands of shape 2×3 and the
after operands of shape 2×2, the claim demands a crop to the 2×2 top-left
submatrix and no error, but `compute_change` subtracts the two index rasters
directly and numpy raises (`none`). -/
theorem crop_policy_counterexample :
    ndvi_change ⟨2, 3, fun _ _ => 1⟩ ⟨2, 3, fun _ _ => 1⟩
      ⟨2, 2, fun _ _ => 1⟩ ⟨2, 2, fun _ _ => 1⟩ = none := rfl

/-- C3 (amended): cropping to the smaller shape happens only inside each time
point's NDBI computation, where `nir` is cropped to `swir`'s shape before the
elementwise arithmetic; the before/after index difference performs no cropping
and a non-broadcastable shape mismatch there is an error. -/
theorem crop_policy_amended :
    (∀ swir nir : NArr, swir.rows ≤ nir.rows → swir.cols ≤ nir.cols →
      ∃ z, ndbiSingle swir nir = some z ∧
        z.eqTo swir.rows swir.cols (fun i j =>
          indexPix (swir.entry i j) (nir.entry i j))) ∧
    (∀ na ra nb rb : NArr,
      na.rows = ra.rows → na.cols = ra.cols →
      nb.rows = rb.rows → nb.cols = rb.cols →
      na.cols ≠ nb.cols → na.cols ≠ 1 → nb.cols ≠ 1 →
      ndvi_change na ra nb rb = none) :=
  ⟨fun swir nir h1 h2 => ndbiSingle_spec swir nir h1 h2,
   fun na ra nb rb h1 h2 h3 h4 h5 h6 h7 =>
     ndvi_change_none_of_cols na ra nb rb h1 h2 h3 h4 h5 h6 h7⟩

theorem crop_policy_amended_witness :
    (∃ z, ndbiSingle ⟨1, 1, fun _ _ => 3⟩ ⟨2, 2, fun _ _ => 5⟩ = some z ∧
      z.eqTo 1 1 (fun _ _ => indexPix 3 5)) ∧
    ndvi_change ⟨3, 4, fun _ _ => 2⟩ ⟨3, 4, fun _ _ => 2⟩
      ⟨3, 2, fun _ _ => 2⟩ ⟨3, 2, fun _ _ => 2⟩ = none :=
  ⟨crop_policy_amended.1 ⟨1, 1, fun _ _ => 3⟩ ⟨2, 2, fun _ _ => 5⟩
     (by decide) (by decide),
   crop_policy_amended.2 ⟨3, 4, fun _ _ => 2⟩ ⟨3, 4, fun _ _ => 2⟩
     ⟨3, 2, fun _ _ => 2⟩ ⟨3, 2, fun _ _ => 2⟩ rfl rfl rfl rfl
     (by decide) (by decide) (by decide)⟩

/-- C4: the scene selector queries the `sentinel-2-l2a` collection with the
cloud-cover filter `lt 10`, so every returned scene has cloud cover strictly
below 10; it signs and returns the first result of the catalog's ordering, and
when the filtered result set is empty the lookup fails with an error that
propagates to the caller (no silent substitution). -/
theorem scene_selector_behaviour (available : List SceneItem) (bbox : BBox) (y : Nat) :
    (mkSearch bbox y).collections = ["sentinel-2-l2a"] ∧
    (mkSearch bbox y).cloudLt = 10 ∧
    (∀ s, s ∈ catalogSearch available (mkSearch bbox y) →
      s.cloudCover < 10 ∧ s.collection = "sentinel-2-l2a") ∧
    (catalogSearch available (mkSearch bbox y) = [] →
      scene available bbox y = Except.error "IndexError: list index out of range") ∧
    (∀ s rest, catalogSearch available (mkSearch bbox y) = s :: rest →
      scene available bbox y = Except.ok (pcSign s)) := by
  refine ⟨rfl, rfl, ?_, ?_, ?_⟩
  · intro s hs
    have hp := List.of_mem_filter hs
    simp only [mkSearch, Bool.and_eq_true, decide_eq_true_eq] at hp
    obtain ⟨hcol, hcloud⟩ := hp
    refine ⟨hcloud, ?_⟩
    have : s.collection ∈ ["sentinel-2-l2a"] := by
      simpa [List.contains, List.elem_eq_mem] using hcol
    simpa using this
  · intro h
    unfold scene
    rw [h]
  · intro s rest h
    unfold scene
    rw [h]

theorem scene_selector_behaviour_witness :
    scene [⟨"sentinel-2-l2a", 50, false⟩] ⟨0, 0, 1, 1⟩ 2024 =
      Except.error "IndexError: list index out of range" ∧
    scene [⟨"sentinel-2-l2a", 5, false⟩] ⟨0, 0, 1, 1⟩ 2024 =
      Except.ok (pcSign ⟨"sentinel-2-l2a", 5, false⟩) :=
  ⟨(scene_selector_behaviour [⟨"sentinel-2-l2a", 50, false⟩] ⟨0, 0, 1, 1⟩ 2024).2.2.2.1 rfl,
   (scene_selector_behaviour [⟨"sentinel-2-l2a", 5, false⟩] ⟨0, 0, 1, 1⟩ 2024).2.2.2.2
     ⟨"sentinel-2-l2a", 5, false⟩ [] rfl⟩

/-- C5: with thresholds from the `[0.1, 0.4]` sliders (default `0.2`), a pixel
counts as vegetation loss iff its NDVI change is strictly below `-T_veg` and
as urban growth iff its NDBI change is strictly above `T_urban`, and for a
nonempty window the reported percentage is count / total × 100. -/
theorem threshold_classification (z : NArr) (tv tu : ℚ)
    (_htv1 : ndvi_thresh.minValue ≤ tv) (_htv2 : tv ≤ ndvi_thresh.maxValue)
    (_htu1 : ndbi_thresh.minValue ≤ tu) (_htu2 : tu ≤ ndbi_thresh.maxValue) :
    (ndvi_thresh.value = 0.2 ∧ ndbi_thresh.value = 0.2 ∧
      ndvi_thresh.minValue = 0.1 ∧ ndvi_thresh.maxValue = 0.4) ∧
    (∀ i j, i < z.rows → j < z.cols →
      ((npLtScalar z (-tv)).entry i j = true ↔ z.entry i j < -tv)) ∧
    (∀ i j, i < z.rows → j < z.cols →
      ((npGtScalar z tu).entry i j = true ↔ z.entry i j > tu)) ∧
    (z.rows * z.cols ≠ 0 →
      safe_percent (npLtScalar z (-tv)) =
        (count_nonzero (npLtScalar z (-tv)) : ℚ) / ((z.rows * z.cols : ℕ) : ℚ) * 100 ∧
      safe_percent (npGtScalar z tu) =
        (count_nonzero (npGtScalar z tu) : ℚ) / ((z.rows * z.cols : ℕ) : ℚ) * 100) := by
  refine ⟨⟨rfl, rfl, rfl, rfl⟩, ?_, ?_, ?_⟩
  · intro i j _ _
    simp [npLtScalar]
  · intro i j _ _
    simp [npGtScalar]
  · intro h
    constructor <;>
      simp [safe_percent, npLtScalar, npGtScalar, BArr.size, h]

theorem threshold_classification_witness :
    (ndvi_thresh.value = 0.2 ∧ ndbi_thresh.value = 0.2 ∧
      ndvi_thresh.minValue = 0.1 ∧ ndvi_thresh.maxValue = 0.4) ∧
    (∀ i j, i < (⟨1, 1, fun _ _ => -(3:ℚ)/10⟩ : NArr).rows →
        j < (⟨1, 1, fun _ _ => -(3:ℚ)/10⟩ : NArr).cols →
      ((npLtScalar ⟨1, 1, fun _ _ => -(3:ℚ)/10⟩ (-(0.2:ℚ))).entry i j = true ↔
        (⟨1, 1, fun _ _ => -(3:ℚ)/10⟩ : NArr).entry i j < -(0.2:ℚ))) ∧
    (∀ i j, i < (⟨1, 1, fun _ _ => -(3:ℚ)/10⟩ : NArr).rows →
        j < (⟨1, 1, fun _ _ => -(3:ℚ)/10⟩ : NArr).cols →
      ((npGtScalar ⟨1, 1, fun _ _ => -(3:ℚ)/10⟩ (0.2:ℚ)).entry i j = true ↔
        (⟨1, 1, fun _ _ => -(3:ℚ)/10⟩ : NArr).entry i j > (0.2:ℚ))) ∧
    ((⟨1, 1, fun _ _ => -(3:ℚ)/10⟩ : NArr).rows * (⟨1, 1, fun _ _ => -(3:ℚ)/10⟩ : NArr).cols ≠ 0 →
      safe_percent (npLtScalar ⟨1, 1, fun _ _ => -(3:ℚ)/10⟩ (-(0.2:ℚ))) =
        (count_nonzero (npLtScalar ⟨1, 1, fun _ _ => -(3:ℚ)/10⟩ (-(0.2:ℚ))) : ℚ) / ((1 * 1 : ℕ) : ℚ) * 100 ∧
      safe_percent (npGtScalar ⟨1, 1, fun _ _ => -(3:ℚ)/10⟩ (0.2:ℚ)) =
        (count_nonzero (npGtScalar ⟨1, 1, fun _ _ => -(3:ℚ)/10⟩ (0.2:ℚ)) : ℚ) / ((1 * 1 : ℕ) : ℚ) * 100) :=
  threshold_classification ⟨1, 1, fun _ _ => -(3:ℚ)/10⟩ 0.2 0.2
    (by norm_num [ndvi_thresh]) (by norm_num [ndvi_thresh])
    (by norm_num [ndbi_thresh]) (by norm_num [ndbi_thresh])

/-- C6: `safe_percent` of a zero-size mask is exactly 0 (no NaN and no
division error), and of a nonzero-size mask is count / size × 100. -/
theorem safe_percent_zero_guard (m : BArr) :
    (m.size = 0 → safe_percent m = 0) ∧
    (m.size ≠ 0 → safe_percent m = (count_nonzero m : ℚ) / (m.size : ℚ) * 100) := by
  constructor
  · intro h
    simp [safe_percent, h]
  · intro h
    simp [safe_percent, h]

theorem safe_percent_zero_guard_witness :
    safe_percent ⟨0, 7, fun _ _ => true⟩ = 0 ∧
    safe_percent ⟨1, 2, fun _ j => decide (j = 0)⟩ =
      (count_nonzero ⟨1, 2, fun _ j => decide (j = 0)⟩ : ℚ) /
        ((⟨1, 2, fun _ j => decide (j = 0)⟩ : BArr).size : ℚ) * 100 :=
  ⟨(safe_percent_zero_guard ⟨0, 7, fun _ _ => true⟩).1 rfl,
   (safe_percent_zero_guard ⟨1, 2, fun _ j => decide (j = 0)⟩).2 (by decide)⟩

/-- C7: ward bounding boxes map to pixel windows by
`int((coord - bbox_min) / (bbox_max - bbox_min) * dim)` clamped to the raster
bounds; the window depends only on the polygon's bounds (not its shape); and
for a 100×100 raster over bbox [0,0,1,1] a zone with bounds [0,0,0.5,0.5]
maps to rows 0-50 and columns 0-50. -/
theorem zone_window_mapping :
    (∀ (bbox : BBox) (h w : Nat) (b : ℚ × ℚ × ℚ × ℚ),
      (wardWindow bbox h w b).1.1 ≤ h ∧ (wardWindow bbox h w b).1.2 ≤ h ∧
      (wardWindow bbox h w b).2.1 ≤ w ∧ (wardWindow bbox h w b).2.2 ≤ w) ∧
    (∀ (a : NArr) (bbox : BBox) (p q : Polygon), polyBounds p = polyBounds q →
      zoneOf a bbox p = zoneOf a bbox q) ∧
    (∀ c lo hi : ℚ, ∀ d : Nat, interpIdx c lo hi d = pyInt ((c - lo) / (hi - lo) * d)) ∧
    wardWindow ⟨0, 0, 1, 1⟩ 100 100
      (polyBounds ⟨(0, 0), [(1/2, 0), (1/2, 1/2)]⟩) = ((0, 50), (0, 50)) := by
  refine ⟨?_, ?_, fun c lo hi d => rfl, ?_⟩
  · intro bbox h w b
    obtain ⟨mx, my, Mx, My⟩ := b
    exact ⟨Nat.min_le_right _ _, Nat.min_le_right _ _,
      Nat.min_le_right _ _, Nat.min_le_right _ _⟩
  · intro a bbox p q hpq
    unfold zoneOf
    rw [hpq]
  · norm_num [wardWindow, interpIdx, pyInt, pyIdx, polyBounds]
    decide

theorem zone_window_mapping_witness :
    ((wardWindow ⟨0, 0, 2, 2⟩ 10 10 ((3:ℚ)/2, 1, 2, 2)).1.1 ≤ 10 ∧
      (wardWindow ⟨0, 0, 2, 2⟩ 10 10 ((3:ℚ)/2, 1, 2, 2)).1.2 ≤ 10 ∧
      (wardWindow ⟨0, 0, 2, 2⟩ 10 10 ((3:ℚ)/2, 1, 2, 2)).2.1 ≤ 10 ∧
      (wardWindow ⟨0, 0, 2, 2⟩ 10 10 ((3:ℚ)/2, 1, 2, 2)).2.2 ≤ 10) ∧
    zoneOf ⟨4, 4, fun i j => (i : ℚ) - j⟩ ⟨0, 0, 1, 1⟩ ⟨(0, 0), [(1, 0), (1, 1)]⟩ =
      zoneOf ⟨4, 4, fun i j => (i : ℚ) - j⟩ ⟨0, 0, 1, 1⟩ ⟨(0, 0), [(1, 0), (1, 1), (0, 1)]⟩ :=
  ⟨zone_window_mapping.1 ⟨0, 0, 2, 2⟩ 10 10 ((3:ℚ)/2, 1, 2, 2),
   zone_window_mapping.2.1 ⟨4, 4, fun i j => (i : ℚ) - j⟩ ⟨0, 0, 1, 1⟩
     ⟨(0, 0), [(1, 0), (1, 1)]⟩ ⟨(0, 0), [(1, 0), (1, 1), (0, 1)]⟩
     (by norm_num [polyBounds])⟩

/-- C8: the normalized-difference index applied to identical operands is
elementwise zero on every pixel of the shape (band reflectances are
nonnegative, so the epsilon-guarded denominator is nonzero). -/
theorem index_self_zero (A : NArr)
    (hA : ∀ i j, i < A.rows → j < A.cols → 0 ≤ A.entry i j) :
    ∃ z, idxExpr A A = some z ∧
      z.eqTo A.rows A.cols (fun _ _ => 0) := by
  obtain ⟨z, hz, hzr, hzc, hze⟩ := idxExpr_spec A A rfl rfl
  refine ⟨z, hz, hzr, hzc, ?_⟩
  intro i j hi hj
  rw [hze i j hi hj]
  have hden : A.entry i j + A.entry i j + eps ≠ 0 := by
    have h0 := hA i j hi hj
    have heps : (0:ℚ) < eps := by norm_num [eps]
    nlinarith
  show indexPix (A.entry i j) (A.entry i j) = 0
  unfold indexPix
  rw [sub_self, zero_div]

theorem index_self_zero_witness :
    ∃ z, idxExpr ⟨2, 2, fun i j => (i : ℚ) + (j : ℚ)⟩ ⟨2, 2, fun i j => (i : ℚ) + (j : ℚ)⟩ = some z ∧
      z.eqTo 2 2 (fun _ _ => 0) :=
  index_self_zero ⟨2, 2, fun i j => (i : ℚ) + (j : ℚ)⟩
    (fun i j _ _ => by positivity)

/-- C9: `safe_percent` always returns a value in the closed interval
`[0, 100]`, for masks of any shape, the empty ones included. -/
theorem safe_percent_range (m : BArr) :
    0 ≤ safe_percent m ∧ safe_percent m ≤ 100 :=
  ⟨safe_percent_nonneg m, safe_percent_le_100 m⟩

/-- C10: `analyze_wards` returns exactly one statistics row per input feature
and one output feature per input feature, both in input order; each output
feature keeps its geometry unchanged and has its properties augmented with the
`popup` key. -/
theorem analyze_wards_structure (boundary : List Feature) (ndvi ndbi : NArr)
    (bbox : BBox) (tv tu : ℚ) :
    (analyze_wards boundary ndvi ndbi bbox tv tu).1.length = boundary.length ∧
    (analyze_wards boundary ndvi ndbi bbox tv tu).2.length = boundary.length ∧
    (∀ i f0, boundary.get? i = some f0 →
      ∃ r fo,
        (analyze_wards boundary ndvi ndbi bbox tv tu).1.get? i = some r ∧
        (analyze_wards boundary ndvi ndbi bbox tv tu).2.get? i = some fo ∧
        r.ward = get_ward_name f0.properties ∧
        r.vegLoss = wardVeg ndvi bbox tv f0.geometry ∧
        r.urban = wardUrb ndbi bbox tu f0.geometry ∧
        fo.geometry = f0.geometry ∧
        fo.properties = setProp f0.properties "popup"
          (some (popupStr (get_ward_name f0.properties)
            (wardVeg ndvi bbox tv f0.geometry)
            (wardUrb ndbi bbox tu f0.geometry)))) := by
  refine ⟨List.length_map _ _, List.length_map _ _, ?_⟩
  intro i f0 h
  refine ⟨rowOf ndvi ndbi bbox tv tu f0, featOf ndvi ndbi bbox tv tu f0,
    ?_, ?_, rfl, rfl, rfl, rfl, rfl⟩
  · show (boundary.map _).get? i = _
    rw [List.get?_eq_getElem?, List.getElem?_map, ← List.get?_eq_getElem?, h]
    rfl
  · show (boundary.map _).get? i = _
    rw [List.get?_eq_getElem?, List.getElem?_map, ← List.get?_eq_getElem?, h]
    rfl

theorem analyze_wards_structure_witness :
    (analyze_wards [⟨⟨(0, 0), [(1, 1)]⟩, [("ward_name", some "A")]⟩]
      ⟨1, 1, fun _ _ => 0⟩ ⟨1, 1, fun _ _ => 0⟩ ⟨0, 0, 1, 1⟩ 0.2 0.2).1.length = 1 ∧
    ∃ r fo,
      (analyze_wards [⟨⟨(0, 0), [(1, 1)]⟩, [("ward_name", some "A")]⟩]
        ⟨1, 1, fun _ _ => 0⟩ ⟨1, 1, fun _ _ => 0⟩ ⟨0, 0, 1, 1⟩ 0.2 0.2).1.get? 0 = some r ∧
      (analyze_wards [⟨⟨(0, 0), [(1, 1)]⟩, [("ward_name", some "A")]⟩]
        ⟨1, 1, fun _ _ => 0⟩ ⟨1, 1, fun _ _ => 0⟩ ⟨0, 0, 1, 1⟩ 0.2 0.2).2.get? 0 = some fo ∧
      r.ward = get_ward_name [("ward_name", some "A")] ∧
      r.vegLoss = wardVeg ⟨1, 1, fun _ _ => 0⟩ ⟨0, 0, 1, 1⟩ 0.2 ⟨(0, 0), [(1, 1)]⟩ ∧
      r.urban = wardUrb ⟨1, 1, fun _ _ => 0⟩ ⟨0, 0, 1, 1⟩ 0.2 ⟨(0, 0), [(1, 1)]⟩ ∧
      fo.geometry = (⟨(0, 0), [(1, 1)]⟩ : Polygon) ∧
      fo.properties = setProp [("ward_name", some "A")] "popup"
        (some (popupStr (get_ward_name [("ward_name", some "A")])
          (wardVeg ⟨1, 1, fun _ _ => 0⟩ ⟨0, 0, 1, 1⟩ 0.2 ⟨(0, 0), [(1, 1)]⟩)
          (wardUrb ⟨1, 1, fun _ _ => 0⟩ ⟨0, 0, 1, 1⟩ 0.2 ⟨(0, 0), [(1, 1)]⟩))) :=
  ⟨(analyze_wards_structure [⟨⟨(0, 0), [(1, 1)]⟩, [("ward_name", some "A")]⟩]
      ⟨1, 1, fun _ _ => 0⟩ ⟨1, 1, fun _ _ => 0⟩ ⟨0, 0, 1, 1⟩ 0.2 0.2).1,
   (analyze_wards_structure [⟨⟨(0, 0), [(1, 1)]⟩, [("ward_name", some "A")]⟩]
      ⟨1, 1, fun _ _ => 0⟩ ⟨1, 1, fun _ _ => 0⟩ ⟨0, 0, 1, 1⟩ 0.2 0.2).2.2 0
      ⟨⟨(0, 0), [(1, 1)]⟩, [("ward_name", some "A")]⟩ rfl⟩
